import Mathlib

/-
Verification of the `expect` package (a Go version of the classic TCL Expect)
against its natural-language specification.

The package drives an interactive child process through a pseudo-terminal.
This development shallowly embeds the pure control logic of the package:

* `Spawn` (expect.go, lines 47-116): command validation, whitespace
  tokenization and the default-timeout substitution.
* `ExpectAny` / `Expect` / `ExpectRe` (expect.go, lines 151-192): the
  deadline-bounded scan loop over the lines produced by the output relay.
* `Interact` (expect.go, lines 195-203).
* `Wait` (expect.go, lines 207-226): teardown step sequence.
* `PipeThrough` (pipe file, lines 429-491): the pass-through reader.

External collaborators (the pseudo-terminal, the OS pipe, the regexp engine,
the scanner's byte-level buffering) are abstracted exactly at the interface
the source uses: a regular expression is its `FindString` function, the
scanned output is a list of lines each tagged with the instant its bytes
become available to the scanner, and a read deadline is an absolute instant
(Go's `SetReadDeadline`): a read whose data arrives after the deadline fails
with the deadline-exceeded timeout error, and an end of stream is observed
only if the write end closes by the deadline.  Times and durations are `Int`
nanoseconds, as Go's `time.Duration` is an `int64` nanosecond count.
-/

namespace expect

/-- Go `error` values as the package distinguishes them: the deadline
timeout error (`os.ErrDeadlineExceeded`, the only error for which
`os.IsTimeout` is true here), `io.EOF`, and `errors.New` strings. -/
inductive GoErr where
  | deadlineExceeded
  | eof
  | str (msg : String)
deriving DecidableEq

/-- `os.IsTimeout` on the errors of `GoErr`. -/
def GoErr.isTimeout : GoErr → Bool
  | .deadlineExceeded => true
  | _ => false

/-- `time.Second` in nanoseconds. -/
def second : Int := 1000000000

/-- `DefaultTimeout` (expect.go line 25): `60 * time.Second`. -/
def DefaultTimeout : Int := 60 * second

/-- Worker for `fields`: accumulates the current run of non-whitespace
characters (reversed) and splits on whitespace, as Go's `strings.Fields`. -/
def fieldsAux : List Char → List Char → List String
  | [], acc => if acc.isEmpty then [] else [String.mk acc.reverse]
  | c :: cs, acc =>
    if c.isWhitespace then
      if acc.isEmpty then fieldsAux cs []
      else String.mk acc.reverse :: fieldsAux cs []
    else fieldsAux cs (c :: acc)

/-- Go `strings.Fields`: the maximal runs of non-whitespace characters. -/
def fields (s : String) : List String := fieldsAux s.data []

/-- Outcome of `Spawn` (expect.go lines 47-116), with the external
pseudo-terminal/process creation (`pty.Start`) abstracted as succeeding.
`panicked` is the Go runtime panic raised by the unguarded index
`commands[0]` when `strings.Fields` returns an empty slice. -/
inductive SpawnOutcome where
  | spawnError (msg : String)
  | panicked
  | session (timeout : Int) (path : String) (args : List String)
deriving DecidableEq

/-- `Spawn` (expect.go lines 47-68, pure part): rejects a zero-length
command, replaces a timeout `< 1` by `DefaultTimeout`, tokenizes the command
with `strings.Fields` and accesses `commands[0]` without a guard. -/
def Spawn (command : String) (timeout : Int) : SpawnOutcome :=
  if command.length = 0 then .spawnError "invalid command"
  else
    let timeout := if timeout < 1 then DefaultTimeout else timeout
    match fields command with
    | [] => .panicked
    | c :: rest => .session timeout c rest

/-- Does the list start with the given pattern? -/
def strStartsWith : List Char → List Char → Bool
  | _, [] => true
  | [], _ :: _ => false
  | a :: as, b :: bs => a == b && strStartsWith as bs

/-- Substring containment on character lists. -/
def strContains : List Char → List Char → Bool
  | [], pat => strStartsWith [] pat
  | c :: rest, pat => strStartsWith (c :: rest) pat || strContains rest pat

/-- Go `strings.Contains s sub`. -/
def goContains (s sub : String) : Bool := strContains s.data sub.data

/-- A compiled Go regular expression, abstracted by its `FindString`
behavior: the leftmost match of the expression in the input, or the empty
string when there is no match (or the leftmost match is empty) — exactly
the interface `ExpectAny` consumes. -/
abbrev Regexp := String → String

/-- The regex half of the loop body of `ExpectAny` (expect.go lines
175-180): when a regexp was supplied, `FindString` the line and report the
matched text only when it is non-empty. -/
def matchRegex (re : Option Regexp) (text : String) : Option String :=
  match re with
  | some r =>
    let matched := r text
    if 0 < matched.length then some matched else none
  | none => none

/-- The loop body of `ExpectAny` for one scanned line (expect.go lines
169-180): when the literal pattern is non-empty and contained in the line,
return the pattern itself; otherwise fall through to the regex check. -/
def matchLine (pattern : String) (re : Option Regexp) (text : String) : Option String :=
  if 0 < pattern.length then
    if goContains text pattern then some pattern else matchRegex re text
  else matchRegex re text

/-- The first line of `texts`, in order, on which `matchLine` succeeds. -/
def firstMatch (pattern : String) (re : Option Regexp) (texts : List String) : Option String :=
  match texts with
  | [] => none
  | t :: ts =>
    match matchLine pattern re t with
    | some s => some s
    | none => firstMatch pattern re ts

/-- One line of the spawned process's output as the scanner sees it:
`arrival` is the instant its bytes become readable on the internal pipe. -/
structure TimedLine where
  arrival : Int
  text : String
deriving DecidableEq

/-- The unread remainder of the scanner's stream at the start of an
`Expect*` call: the lines still to come (arrival times nondecreasing) and
the instant the write end of the internal pipe closes (`none` = it never
closes during the scenario). -/
structure OutputStream where
  lines : List TimedLine
  closeTime : Option Int
deriving DecidableEq

/-- What an `Expect*` call returns, together with whether the call invoked
`Wait` (session teardown) before returning. `value`/`err` are the two
results of `ExpectAny` (expect.go lines 162-192). -/
structure ExpectReturn where
  value : String
  err : Option GoErr
  waitCalled : Bool
deriving DecidableEq

/-- The return of `ExpectAny` when the read deadline elapsed: the scan loop
exits, `e.Wait()` runs (line 184), and `scanner.Err()` — the deadline
timeout error — is returned (lines 186-188). -/
def timeoutReturn : ExpectReturn := ⟨"", some .deadlineExceeded, true⟩

/-- The return of `ExpectAny` when the stream ended with no match: the scan
loop exits at EOF, `e.Wait()` runs (line 184), `scanner.Err()` is nil, and
`errors.New "command exit"` is returned (line 191). -/
def streamEndReturn : ExpectReturn := ⟨"", some (.str "command exit"), true⟩

/-- The scan loop of `ExpectAny` (expect.go lines 168-191) under an
absolute read `deadline`.  A line whose bytes arrive by the deadline is
scanned and tested with `matchLine`; a satisfied test returns at once with
no teardown.  Otherwise the loop ends: at end of stream (write end closed
by the deadline) `scanner.Scan` returns false with a nil `scanner.Err`,
while a line or close arriving only after the deadline makes the underlying
read fail with the timeout error first. In both cases `e.Wait()` runs
before the error is returned. -/
def scanLines (deadline : Int) (pattern : String) (re : Option Regexp) :
    List TimedLine → Option Int → ExpectReturn
  | [], closeTime =>
    match closeTime with
    | some c => if c ≤ deadline then streamEndReturn else timeoutReturn
    | none => timeoutReturn
  | l :: ls, closeTime =>
    if l.arrival ≤ deadline then
      match matchLine pattern re l.text with
      | some s => ⟨s, none, false⟩
      | none => scanLines deadline pattern re ls closeTime
    else timeoutReturn

/-- `ExpectAny` (expect.go lines 162-192). `sessionTimeout` is the
Session's stored default, `now` the instant of the call. A negative
`timeout` is replaced by the default; then the read deadline is set to
`time.Now().Add(timeout)` — note this installs the absolute instant
`now + timeout` for every `timeout ≥ 0`, including `timeout = 0`. -/
def ExpectAny (sessionTimeout now : Int) (stream : OutputStream)
    (pattern : String) (re : Option Regexp) (timeout : Int) : ExpectReturn :=
  let t := if timeout < 0 then sessionTimeout else timeout
  scanLines (now + t) pattern re stream.lines stream.closeTime

/-- `Expect` (expect.go lines 151-154): delegates to `ExpectAny` with no
regexp and reports whether the returned text is non-empty (plus, in this
model, whether teardown ran). -/
def Expect (sessionTimeout now : Int) (stream : OutputStream)
    (pattern : String) (timeout : Int) : Bool × Option GoErr × Bool :=
  let r := ExpectAny sessionTimeout now stream pattern none timeout
  (r.value != "", r.err, r.waitCalled)

/-- `ExpectRe` (expect.go lines 157-159): delegates to `ExpectAny` with an
empty literal pattern. -/
def ExpectRe (sessionTimeout now : Int) (stream : OutputStream)
    (re : Regexp) (timeout : Int) : ExpectReturn :=
  ExpectAny sessionTimeout now stream "" (some re) timeout

/-- The observable behavior of one `Interact` call: the instant it returns
to its caller, its error result, and whether it performed the synchronous
copy of pseudo-terminal output to the display. -/
structure InteractRun where
  returnTime : Int
  err : Option GoErr
  copiedOutput : Bool
deriving DecidableEq

/-- `Interact` (expect.go lines 195-203). `closeErr` is the result of
closing the scanner's read endpoint; `ptyEndTime` is the instant the
pseudo-terminal stream ends (the child exits), which is when the
`io.Copy(os.Stdout, e.pty)` performed by `Interact` itself returns. On a
close failure `Interact` returns the error at once without copying;
otherwise it runs the copy to completion and only then returns nil. -/
def Interact (callTime : Int) (closeErr : Option GoErr) (ptyEndTime : Int) : InteractRun :=
  match closeErr with
  | some e => ⟨callTime, some e, false⟩
  | none => ⟨max callTime ptyEndTime, none, true⟩

/-- The steps `Wait` can perform, in source order (expect.go lines
207-226): block for child exit (`cmd.Wait`, error discarded), close the
pseudo-terminal, stop and close the resize-signal channel, restore the
terminal mode. -/
inductive WaitStep where
  | procWait
  | closePty
  | stopSignals
  | restoreMode
deriving DecidableEq

/-- The observable behavior of one `Wait` call: the steps it performed in
order, its error result, and whether the terminal mode was actually
restored. -/
structure WaitRun where
  steps : List WaitStep
  err : Option GoErr
  modeRestored : Bool
deriving DecidableEq

/-- `Wait` (expect.go lines 207-226). `closeErr` / `restoreErr` are the
results of `e.pty.Close()` and `term.Restore`. `cmd.Wait` always runs
first. A close failure returns immediately — the signal channel is not
stopped and the terminal mode is not restored. Otherwise the signal
channel is stopped and restoration is attempted; its failure is returned. -/
def Wait (closeErr restoreErr : Option GoErr) : WaitRun :=
  match closeErr with
  | some e => ⟨[.procWait, .closePty], some e, false⟩
  | none =>
    match restoreErr with
    | some e => ⟨[.procWait, .closePty, .stopSignals, .restoreMode], some e, false⟩
    | none => ⟨[.procWait, .closePty, .stopSignals, .restoreMode], none, true⟩

/-- The state of a `PipeThrough` (pipe file lines 429-432) that matters to
`Read`: the one-slot error channel. `some e` = the copier's terminal error
is still pending; `none` = it was received once and the channel is closed
(later receives report a closed channel). -/
structure PipeThrough where
  errCh : Option GoErr
deriving DecidableEq

/-- The error the copier of `NewPipeThrough` sends on the channel (pipe
file lines 443-447): the wrapped source's read failure, or `io.EOF` when
the copy ended cleanly. -/
def sourceTerminalErr (copyErr : Option GoErr) : GoErr :=
  match copyErr with
  | none => .eof
  | some e => e

/-- `NewPipeThrough` (pipe file lines 435-463) once its copier has
exhausted the wrapped source: the terminal error is pending on the
channel. -/
def NewPipeThrough (copyErr : Option GoErr) : PipeThrough :=
  ⟨some (sourceTerminalErr copyErr)⟩

/-- The result of the inner `pt.reader.Read` on the pipe's read end:
either `n` bytes, or a failure carrying `n` and the pipe's own error. -/
inductive PipeReadRes where
  | ok (n : Nat)
  | fail (n : Nat) (e : GoErr)
deriving DecidableEq

/-- `PipeThrough.Read` (pipe file lines 465-483): on success, pass through;
on a timeout error, return it as-is without touching the channel; on any
other failure, receive from the channel — the pending source terminal error
if the channel still holds it, otherwise the pipe's own error. -/
def PipeThrough.Read (pt : PipeThrough) (res : PipeReadRes) :
    (Nat × Option GoErr) × PipeThrough :=
  match res with
  | .ok n => ((n, none), pt)
  | .fail n e =>
    if e.isTimeout then ((n, some e), pt)
    else
      match pt.errCh with
      | some perr => ((n, some perr), ⟨none⟩)
      | none => ((n, some e), pt)

/-- A sequence of `Read` calls on a `PipeThrough`, returning the results in
order and the final state. -/
def PipeThrough.readAll (pt : PipeThrough) :
    List PipeReadRes → List (Nat × Option GoErr) × PipeThrough
  | [] => ([], pt)
  | r :: rs =>
    let step := pt.Read r
    let rest := step.2.readAll rs
    (step.1 :: rest.1, rest.2)

/-- Does a pipe read result fail with a non-timeout error? Only such a
read makes `PipeThrough.Read` consume the error channel. -/
def nonTimeoutFail : PipeReadRes → Bool
  | .ok _ => false
  | .fail _ e => !e.isTimeout

/-- If no line's text satisfies `matchLine`, a stream whose close (if any)
happens only after the deadline makes the scan loop end in the timeout
return: loop exit, teardown, the scanner's timeout error. -/
theorem scanLines_timeout (deadline : Int) (pattern : String) (re : Option Regexp) :
    ∀ (lines : List TimedLine) (closeTime : Option Int),
      firstMatch pattern re (lines.map (fun l => l.text)) = none →
      (closeTime = none ∨ ∃ c, closeTime = some c ∧ deadline < c) →
      scanLines deadline pattern re lines closeTime = timeoutReturn := by
  intro lines
  induction lines with
  | nil =>
    intro closeTime _ hc
    rcases hc with h | ⟨c, hc, hdc⟩
    · subst h; rfl
    · subst hc
      show (if c ≤ deadline then streamEndReturn else timeoutReturn) = timeoutReturn
      rw [if_neg (by omega)]
  | cons l ls ih =>
    intro closeTime hno hc
    simp only [List.map_cons, firstMatch] at hno
    rcases hml : matchLine pattern re l.text with _ | s
    · rw [hml] at hno
      show (if l.arrival ≤ deadline then _ else timeoutReturn) = timeoutReturn
      by_cases harr : l.arrival ≤ deadline
      · rw [if_pos harr]
        simp only [hml]
        exact ih closeTime hno hc
      · rw [if_neg harr]
    · rw [hml] at hno; exact absurd hno (by simp)

/-- If no line's text satisfies `matchLine`, all lines arrive by the
deadline, and the write end closes by the deadline, the scan loop ends in
the stream-end return: loop exit at EOF, teardown, `"command exit"`. -/
theorem scanLines_streamEnd (deadline : Int) (pattern : String) (re : Option Regexp) :
    ∀ (lines : List TimedLine) (c : Int),
      (∀ l ∈ lines, l.arrival ≤ deadline) →
      firstMatch pattern re (lines.map (fun l => l.text)) = none →
      c ≤ deadline →
      scanLines deadline pattern re lines (some c) = streamEndReturn := by
  intro lines
  induction lines with
  | nil =>
    intro c _ _ hcd
    show (if c ≤ deadline then streamEndReturn else timeoutReturn) = streamEndReturn
    rw [if_pos hcd]
  | cons l ls ih =>
    intro c harr hno hcd
    simp only [List.map_cons, firstMatch] at hno
    rcases hml : matchLine pattern re l.text with _ | s
    · rw [hml] at hno
      show (if l.arrival ≤ deadline then _ else timeoutReturn) = streamEndReturn
      rw [if_pos (harr l (List.mem_cons_self l ls))]
      simp only [hml]
      exact ih c (fun x hx => harr x (List.mem_cons_of_mem l hx)) hno hcd
    · rw [hml] at hno; exact absurd hno (by simp)

/-- If some line satisfies `matchLine` and every line up to and including
it arrives by the deadline, the scan loop returns the first satisfied
test's result at once, with no error and no teardown. The hypothesis asks
all lines to arrive on time, which covers the matching prefix. -/
theorem scanLines_found (deadline : Int) (pattern : String) (re : Option Regexp) :
    ∀ (lines : List TimedLine) (closeTime : Option Int) (s : String),
      (∀ l ∈ lines, l.arrival ≤ deadline) →
      firstMatch pattern re (lines.map (fun l => l.text)) = some s →
      scanLines deadline pattern re lines closeTime = ⟨s, none, false⟩ := by
  intro lines
  induction lines with
  | nil => intro closeTime s _ h; exact absurd h (by simp [firstMatch])
  | cons l ls ih =>
    intro closeTime s harr hfound
    simp only [List.map_cons, firstMatch] at hfound
    show (if l.arrival ≤ deadline then _ else timeoutReturn) = ExpectReturn.mk s none false
    rw [if_pos (harr l (List.mem_cons_self l ls))]
    rcases hml : matchLine pattern re l.text with _ | v
    · rw [hml] at hfound
      simp only [hml]
      exact ih closeTime s (fun x hx => harr x (List.mem_cons_of_mem l hx)) hfound
    · rw [hml] at hfound
      simp only [hml]
      simp only [Option.some.injEq] at hfound
      rw [hfound]

/-- If no line's text satisfies `matchLine`, the scan loop can only end in
the timeout return or the stream-end return — never a match. -/
theorem scanLines_noMatch (deadline : Int) (pattern : String) (re : Option Regexp) :
    ∀ (lines : List TimedLine) (closeTime : Option Int),
      firstMatch pattern re (lines.map (fun l => l.text)) = none →
      scanLines deadline pattern re lines closeTime = timeoutReturn ∨
      scanLines deadline pattern re lines closeTime = streamEndReturn := by
  intro lines
  induction lines with
  | nil =>
    intro closeTime _
    rcases closeTime with _ | c
    · exact Or.inl rfl
    · show (if c ≤ deadline then streamEndReturn else timeoutReturn) = _ ∨
        (if c ≤ deadline then streamEndReturn else timeoutReturn) = _
      by_cases hcd : c ≤ deadline
      · rw [if_pos hcd]; exact Or.inr rfl
      · rw [if_neg hcd]; exact Or.inl rfl
  | cons l ls ih =>
    intro closeTime hno
    simp only [List.map_cons, firstMatch] at hno
    rcases hml : matchLine pattern re l.text with _ | s
    · rw [hml] at hno
      show (if l.arrival ≤ deadline then _ else timeoutReturn) = _ ∨
        (if l.arrival ≤ deadline then _ else timeoutReturn) = _
      by_cases harr : l.arrival ≤ deadline
      · rw [if_pos harr]
        simp only [hml]
        exact ih closeTime hno
      · rw [if_neg harr]; exact Or.inl rfl
    · rw [hml] at hno; exact absurd hno (by simp)

/-- A command made of whitespace only tokenizes to no fields. -/
theorem fieldsAux_whitespace :
    ∀ (l : List Char), (∀ c ∈ l, c.isWhitespace = true) → fieldsAux l [] = [] := by
  intro l
  induction l with
  | nil => intro _; rfl
  | cons c cs ih =>
    intro h
    have hc : c.isWhitespace = true := h c (List.mem_cons_self c cs)
    simp only [fieldsAux, hc, List.isEmpty_nil, if_true, ite_true]
    exact ih (fun x hx => h x (List.mem_cons_of_mem c hx))

/-- A non-empty string has non-zero length. -/
theorem string_length_ne_zero (s : String) (h : s ≠ "") : ¬ s.length = 0 := by
  intro h0
  apply h
  rcases s with ⟨d⟩
  have hd : d = [] := List.length_eq_zero.mp h0
  subst hd
  rfl

/-- Claim C1: the claim (and the source's own doc comment "Zero timeout
means expect forever", expect.go lines 149-150) says a zero timeout
enforces no read deadline and never yields a timeout error. The code
instead calls `SetReadDeadline(time.Now().Add(0))`, installing the call
instant itself as the deadline, so the very first read that has to wait
times out at once: with timeout 0, a stream whose line "ready" (which
would match) arrives 1ns after the call returns the timeout error — while
the same call with timeout 1 returns the match. -/
theorem C1_zero_timeout_times_out_immediately :
    ExpectAny DefaultTimeout 0 ⟨[⟨1, "ready"⟩], none⟩ "ready" none 0 = timeoutReturn ∧
    matchLine "ready" none "ready" = some "ready" ∧
    ExpectAny DefaultTimeout 0 ⟨[⟨1, "ready"⟩], none⟩ "ready" none 1 =
      ⟨"ready", none, false⟩ := by
  refine ⟨?_, ?_, ?_⟩ <;> decide

/-- Claim C2 (counterexample): the claim says that on a deadline expiry the
timeout error is returned *without* invoking `Wait`. But `ExpectAny` runs
`e.Wait()` (expect.go line 184) whenever its scan loop exits without a
match — the timeout case included: here the only line arrives at 10, past
the deadline 0 + 3, and the call both returns the scanner's timeout error
and performs the teardown. -/
theorem C2_timeout_invokes_wait_counterexample :
    (ExpectAny 5 0 ⟨[⟨10, "ready"⟩], none⟩ "ready" none 3).waitCalled = true ∧
    (ExpectAny 5 0 ⟨[⟨10, "ready"⟩], none⟩ "ready" none 3).err =
      some GoErr.deadlineExceeded := by
  decide

/-- Claim C2 (amended): when the read deadline elapses before any match or
stream end, the scanner's timeout error is returned to the caller, but the
engine also triggers session teardown first — `ExpectAny` invokes `Wait`
whenever the scan loop ends without a match, on timeout just as on stream
end. -/
theorem C2_timeout_returns_scanner_error_after_teardown
    (sessionTimeout now timeout : Int) (stream : OutputStream)
    (pattern : String) (re : Option Regexp)
    (hno : firstMatch pattern re (stream.lines.map (fun l => l.text)) = none)
    (hc : stream.closeTime = none ∨ ∃ c, stream.closeTime = some c ∧
      now + (if timeout < 0 then sessionTimeout else timeout) < c) :
    ExpectAny sessionTimeout now stream pattern re timeout = timeoutReturn := by
  simp only [ExpectAny]
  exact scanLines_timeout _ _ _ _ _ hno hc

/-- Witness for C2: a concrete call where the only line arrives after the
deadline and the write end never closes. -/
theorem C2_witness :
    ExpectAny 5 0 ⟨[⟨7, "b"⟩], none⟩ "a" none 3 = timeoutReturn :=
  C2_timeout_returns_scanner_error_after_teardown 5 0 3 ⟨[⟨7, "b"⟩], none⟩ "a" none
    (by decide) (Or.inl rfl)

/-- Claim C3: when the scanner's source is exhausted (the write end closes
by the deadline) and no line matched, `ExpectAny` triggers `Wait` and
returns the `"command exit"` error; in particular, an `Expect` call with
timeout -1 on an already-closed stream returns that stream-ended error with
no match. `streamEndReturn` records both the error and the teardown
(`waitCalled = true`; the `Wait` at expect.go line 184 precedes the returns
at lines 186-191). -/
theorem C3_stream_end_teardown_and_command_exit :
    (∀ (sessionTimeout now timeout : Int) (lines : List TimedLine) (c : Int)
      (pattern : String) (re : Option Regexp),
      (∀ l ∈ lines, l.arrival ≤ now + (if timeout < 0 then sessionTimeout else timeout)) →
      firstMatch pattern re (lines.map (fun l => l.text)) = none →
      c ≤ now + (if timeout < 0 then sessionTimeout else timeout) →
      ExpectAny sessionTimeout now ⟨lines, some c⟩ pattern re timeout = streamEndReturn) ∧
    (∀ (sessionTimeout now c : Int) (pattern : String),
      1 ≤ sessionTimeout → c ≤ now →
      Expect sessionTimeout now ⟨[], some c⟩ pattern (-1) =
        (false, some (GoErr.str "command exit"), true)) := by
  constructor
  · intro sessionTimeout now timeout lines c pattern re harr hno hcd
    simp only [ExpectAny]
    exact scanLines_streamEnd _ _ _ lines c harr hno hcd
  · intro sessionTimeout now c pattern h1 h2
    have hs : scanLines (now + sessionTimeout) pattern none [] (some c) = streamEndReturn := by
      show (if c ≤ now + sessionTimeout then streamEndReturn else timeoutReturn) = _
      rw [if_pos (by omega)]
    simp only [Expect, ExpectAny]
    rw [if_pos (show (-1 : Int) < 0 by decide), hs]
    decide

/-- Witness for C3: a non-matching line at time 0, stream closed at time 0,
and the already-closed-stream `Expect` scenario from the spec. -/
theorem C3_witness :
    ExpectAny 5 0 ⟨[⟨0, "x"⟩], some 0⟩ "a" none 3 = streamEndReturn ∧
    Expect 5 0 ⟨[], some 0⟩ "ready" (-1) =
      (false, some (GoErr.str "command exit"), true) :=
  ⟨C3_stream_end_teardown_and_command_exit.1 5 0 3 [⟨0, "x"⟩] 0 "a" none
      (by decide) (by decide) (by decide),
    C3_stream_end_teardown_and_command_exit.2 5 0 0 "ready" (by decide) (by decide)⟩

/-- Claim C5: within one `ExpectAny` call, lines are tested strictly in
order and the call returns on the first satisfied test (first conjunct:
the result is the first line, in received order, whose test succeeds — no
error, no teardown); on each line the literal is tested before the regex,
the literal winning when both are supplied and returning the supplied
pattern itself (second conjunct); when the literal test does not fire, the
regex is consulted and a match returns the matched substring (third
conjunct). -/
theorem C5_in_order_literal_priority :
    (∀ (sessionTimeout now timeout : Int) (stream : OutputStream)
      (pattern : String) (re : Option Regexp) (s : String),
      (∀ l ∈ stream.lines, l.arrival ≤ now + (if timeout < 0 then sessionTimeout else timeout)) →
      firstMatch pattern re (stream.lines.map (fun l => l.text)) = some s →
      ExpectAny sessionTimeout now stream pattern re timeout = ⟨s, none, false⟩) ∧
    (∀ (pattern text : String) (re : Option Regexp),
      0 < pattern.length → goContains text pattern = true →
      matchLine pattern re text = some pattern) ∧
    (∀ (pattern text : String) (r : Regexp),
      ¬(0 < pattern.length ∧ goContains text pattern = true) →
      matchLine pattern (some r) text =
        if 0 < (r text).length then some (r text) else none) := by
  refine ⟨?_, ?_, ?_⟩
  · intro sessionTimeout now timeout stream pattern re s harr hfound
    simp only [ExpectAny]
    exact scanLines_found _ _ _ _ _ s harr hfound
  · intro pattern text re h1 h2
    simp only [matchLine]
    rw [if_pos h1, if_pos h2]
  · intro pattern text r hneg
    simp only [matchLine]
    by_cases h1 : 0 < pattern.length
    · rw [if_pos h1, if_neg (fun hg => hneg ⟨h1, hg⟩)]
      rfl
    · rw [if_neg h1]
      rfl

/-- Witness for C5: the second line matches the literal; a line matched by
both the literal and a regex returns the literal pattern; with an empty
literal the regex's matched substring is returned. -/
theorem C5_witness :
    ExpectAny 5 0 ⟨[⟨0, "zz"⟩, ⟨0, "xay"⟩], none⟩ "a" none 3 = ⟨"a", none, false⟩ ∧
    matchLine "a" (some (fun _ => "bc")) "xaz" = some "a" ∧
    matchLine "" (some (fun _ => "bc")) "xyz" = some "bc" :=
  ⟨C5_in_order_literal_priority.1 5 0 3 ⟨[⟨0, "zz"⟩, ⟨0, "xay"⟩], none⟩ "a" none "a"
      (by decide) (by decide),
    C5_in_order_literal_priority.2.1 "a" "xaz" (some (fun _ => "bc"))
      (by decide) (by decide),
    (C5_in_order_literal_priority.2.2 "" "xyz" (fun _ => "bc")
      (by simp)).trans (by decide)⟩

/-- Claim C4 (counterexample): the claim says `Interact` returns as soon as
detaching the scanner succeeds and does not block waiting for further
pseudo-terminal output. But after a successful detach, `Interact` runs
`io.Copy(os.Stdout, e.pty)` synchronously (expect.go line 201): called at
time 0 with the pseudo-terminal stream ending only at time 5, it performs
the copy itself and returns at time 5, not at time 0. -/
theorem C4_interact_blocks_counterexample :
    (Interact 0 none 5).returnTime = 5 ∧ (Interact 0 none 5).returnTime ≠ 0 ∧
    (Interact 0 none 5).copiedOutput = true := by
  decide

/-- Claim C4 (amended): `Interact` returns immediately with the error when
detaching the scanner (closing the scanner's read endpoint) fails, and its
only result is that error (nil otherwise); but on a successful detach it
does not return at once — it synchronously copies pseudo-terminal output to
the operator display and returns nil only when the pseudo-terminal stream
ends. -/
theorem C4_interact_detach_then_blocking_copy (callTime ptyEndTime : Int) (e : GoErr) :
    Interact callTime (some e) ptyEndTime = ⟨callTime, some e, false⟩ ∧
    Interact callTime none ptyEndTime = ⟨max callTime ptyEndTime, none, true⟩ :=
  ⟨rfl, rfl⟩

/-- Claim C6: `Spawn` with an empty command fails with the spawn error and
produces no session, and any non-positive timeout argument is replaced by
the default of 60 seconds (60 * 10^9 ns) in the session it produces. -/
theorem C6_spawn_empty_command_and_default_timeout (command : String) (t : Int) :
    Spawn "" t = .spawnError "invalid command" ∧
    DefaultTimeout = 60 * 1000000000 ∧
    (t ≤ 0 → ∀ (d : Int) (path : String) (args : List String),
      Spawn command t = .session d path args → d = DefaultTimeout) := by
  refine ⟨rfl, rfl, ?_⟩
  intro ht d path args h
  by_cases hlen : command.length = 0
  · rw [Spawn, if_pos hlen] at h
    exact absurd h (by simp)
  · rw [Spawn, if_neg hlen] at h
    rw [if_pos (show t < 1 by omega)] at h
    rcases hf : fields command with _ | ⟨c, rest⟩ <;> rw [hf] at h
    · exact absurd h (by simp)
    · rw [SpawnOutcome.session.injEq] at h
      exact h.1.symm

/-- Witness for C6: `Spawn "echo hi" 0` stores the 60s default. -/
theorem C6_witness :
    (0 : Int) ≤ 0 ∧ Spawn "echo hi" 0 = .session DefaultTimeout "echo" ["hi"] ∧
    DefaultTimeout = DefaultTimeout :=
  ⟨by decide, by decide,
    (C6_spawn_empty_command_and_default_timeout "echo hi" 0).2.2 (by decide)
      DefaultTimeout "echo" ["hi"] (by decide)⟩

/-- Claim C7 (counterexample): the claim says the partial-teardown
combination "terminal mode restored but pseudo-terminal close failed" is
possible. It is not: `Wait` returns the close error immediately (expect.go
lines 211-214), before `term.Restore` is ever reached, so no input to
`Wait` has both the mode restored and a close failure. -/
theorem C7_mode_restored_with_close_failure_impossible :
    ¬ ∃ (closeErr restoreErr : Option GoErr),
      (Wait closeErr restoreErr).modeRestored = true ∧ closeErr.isSome = true := by
  rintro ⟨closeErr, restoreErr, h1, h2⟩
  rcases closeErr with _ | e
  · simp at h2
  · simp [Wait] at h1

/-- Claim C7 (amended): `Wait` always performs process-exit detection
(`cmd.Wait`) before any teardown step, and a failure to close the
pseudo-terminal or to restore the terminal mode is reported as `Wait`'s
error without preventing that exit detection; however, a close failure
makes `Wait` return before mode restoration, so the reachable partial
teardowns are "close failed, mode not restored" and "close succeeded,
restore failed" — never "mode restored but close failed". -/
theorem C7_wait_exit_detection_first_and_partial_teardown
    (closeErr restoreErr : Option GoErr) :
    (Wait closeErr restoreErr).steps.head? = some .procWait ∧
    (∀ e, closeErr = some e →
      (Wait closeErr restoreErr).err = some e ∧
      (Wait closeErr restoreErr).modeRestored = false ∧
      WaitStep.procWait ∈ (Wait closeErr restoreErr).steps) ∧
    (∀ e, closeErr = none → restoreErr = some e →
      (Wait closeErr restoreErr).err = some e ∧
      (Wait closeErr restoreErr).modeRestored = false ∧
      WaitStep.closePty ∈ (Wait closeErr restoreErr).steps) ∧
    ((Wait closeErr restoreErr).modeRestored = true →
      closeErr = none ∧ restoreErr = none) := by
  rcases closeErr with _ | ce <;> rcases restoreErr with _ | re <;>
    simp [Wait]

/-- Witness for C7: a failed pseudo-terminal close is reported and leaves
the terminal mode unrestored; a failed restore after a successful close is
reported too. -/
theorem C7_witness :
    (Wait (some (GoErr.str "close failed")) none).err = some (GoErr.str "close failed") ∧
    (Wait (some (GoErr.str "close failed")) none).modeRestored = false ∧
    WaitStep.procWait ∈ (Wait (some (GoErr.str "close failed")) none).steps :=
  (C7_wait_exit_detection_first_and_partial_teardown
    (some (GoErr.str "close failed")) none).2.1 (GoErr.str "close failed") rfl

/-- Claim C8: `PipeThrough.Read` passes successful reads through; returns a
timeout error as-is without consuming the channel; on the first read that
fails with a non-timeout error it surfaces the wrapped source's terminal
error that `NewPipeThrough`'s copier queued (consuming the channel, which
closes it); any later failing read returns the pipe's own error instead.
The fifth conjunct shows the terminal error stays pending across any
sequence of successful or timeout reads; the last ties the pending error to
the copier: the source's failure, or `io.EOF` after a clean copy. -/
theorem C8_source_terminal_error_surfaced_once :
    (∀ (pt : PipeThrough) (n : Nat), pt.Read (.ok n) = ((n, none), pt)) ∧
    (∀ (pt : PipeThrough) (n : Nat) (e : GoErr), e.isTimeout = true →
      pt.Read (.fail n e) = ((n, some e), pt)) ∧
    (∀ (n : Nat) (e src : GoErr), e.isTimeout = false →
      PipeThrough.Read ⟨some src⟩ (.fail n e) = ((n, some src), ⟨none⟩)) ∧
    (∀ (n : Nat) (e : GoErr), e.isTimeout = false →
      PipeThrough.Read ⟨none⟩ (.fail n e) = ((n, some e), ⟨none⟩)) ∧
    (∀ (src : GoErr) (reads : List PipeReadRes),
      (∀ r ∈ reads, nonTimeoutFail r = false) →
      (PipeThrough.readAll ⟨some src⟩ reads).2 = ⟨some src⟩) ∧
    (∀ (copyErr : Option GoErr),
      NewPipeThrough copyErr = ⟨some (sourceTerminalErr copyErr)⟩) ∧
    sourceTerminalErr none = .eof := by
  refine ⟨fun pt n => rfl, ?_, ?_, ?_, ?_, fun copyErr => rfl, rfl⟩
  · intro pt n e he
    show (if e.isTimeout then ((n, some e), pt) else _) = ((n, some e), pt)
    rw [he, if_pos rfl]
  · intro n e src he
    show (if e.isTimeout then _ else ((n, some src), ⟨none⟩)) =
      ((n, some src), (⟨none⟩ : PipeThrough))
    rw [he, if_neg Bool.false_ne_true]
  · intro n e he
    show (if e.isTimeout then _ else ((n, some e), (⟨none⟩ : PipeThrough))) =
      ((n, some e), (⟨none⟩ : PipeThrough))
    rw [he, if_neg Bool.false_ne_true]
  · intro src reads h
    induction reads with
    | nil => rfl
    | cons r rs ih =>
      have h2 : (PipeThrough.Read ⟨some src⟩ r).2 = ⟨some src⟩ := by
        rcases r with n | ⟨n, e⟩
        · rfl
        · have he : e.isTimeout = true := by
            have := h (.fail n e) (List.mem_cons_self _ _)
            simpa [nonTimeoutFail] using this
          show (if e.isTimeout then ((n, some e), (⟨some src⟩ : PipeThrough)) else _).2 =
            (⟨some src⟩ : PipeThrough)
          rw [he, if_pos rfl]
      show ((PipeThrough.Read ⟨some src⟩ r).2.readAll rs).2 = ⟨some src⟩
      rw [h2]
      exact ih (fun x hx => h x (List.mem_cons_of_mem _ hx))

/-- Witness for C8: a clean copy queues `io.EOF`; the first failing read
(the pipe's own EOF after the writer closed) surfaces the queued source
error — here a source read failure — and a timeout read leaves it queued. -/
theorem C8_witness :
    GoErr.isTimeout .eof = false ∧
    PipeThrough.Read ⟨some (GoErr.str "source failed")⟩ (.fail 0 .eof) =
      ((0, some (GoErr.str "source failed")), ⟨none⟩) ∧
    PipeThrough.Read ⟨none⟩ (.fail 0 .eof) = ((0, some GoErr.eof), ⟨none⟩) ∧
    (PipeThrough.readAll ⟨some GoErr.eof⟩ [.ok 3, .fail 1 .deadlineExceeded]).2 =
      ⟨some GoErr.eof⟩ :=
  ⟨rfl,
    C8_source_terminal_error_surfaced_once.2.2.1 0 .eof (GoErr.str "source failed") rfl,
    C8_source_terminal_error_surfaced_once.2.2.2.1 0 .eof rfl,
    C8_source_terminal_error_surfaced_once.2.2.2.2.1 GoErr.eof
      [.ok 3, .fail 1 .deadlineExceeded] (by decide)⟩


/-- Claim C9: a command that is non-empty but all whitespace passes
`Spawn`'s validation (which checks only the string length), tokenizes to an
empty field list, and the unguarded `commands[0]` access then panics — the
empty-command error branch does not cover such inputs. -/
theorem C9_whitespace_command_panics (command : String) (t : Int)
    (h1 : command ≠ "") (h2 : ∀ c ∈ command.data, c.isWhitespace = true) :
    Spawn command t = .panicked := by
  have hf : fields command = [] := fieldsAux_whitespace command.data h2
  rw [Spawn, if_neg (string_length_ne_zero command h1), hf]

/-- Witness for C9: a single-space command. -/
theorem C9_witness : Spawn " " 1 = .panicked :=
  C9_whitespace_command_panics " " 1 (by decide) (by decide)

/-- Claim C10: `ExpectAny` never tests an empty literal pattern (the first
conjunct: with an empty pattern the per-line test is exactly the regex
test) and only counts a regex match whose matched substring is non-empty;
so with an empty pattern and a nil regex, or a regex whose `FindString`
returns the empty string on every line, no line ever matches and every call
ends in the timeout return or the stream-end return, never a match. -/
theorem C10_empty_pattern_never_matches
    (sessionTimeout now timeout : Int) (stream : OutputStream) (r : Regexp)
    (hr : ∀ text, r text = "") :
    (∀ (re : Option Regexp) (text : String), matchLine "" re text = matchRegex re text) ∧
    (∀ text, matchLine "" (some r) text = none) ∧
    (ExpectAny sessionTimeout now stream "" none timeout = timeoutReturn ∨
      ExpectAny sessionTimeout now stream "" none timeout = streamEndReturn) ∧
    (ExpectAny sessionTimeout now stream "" (some r) timeout = timeoutReturn ∨
      ExpectAny sessionTimeout now stream "" (some r) timeout = streamEndReturn) := by
  have hbase : ∀ (re : Option Regexp) (text : String), matchLine "" re text = matchRegex re text := by
    intro re text
    simp only [matchLine]
    rw [if_neg (by simp)]
  have hnil : ∀ text, matchLine "" (none : Option Regexp) text = none := by
    intro text; rw [hbase]; rfl
  have hre : ∀ text, matchLine "" (some r) text = none := by
    intro text
    rw [hbase]
    simp only [matchRegex, hr text]
    rfl
  have hfm : ∀ (re : Option Regexp), (∀ text, matchLine "" re text = none) →
      ∀ (texts : List String), firstMatch "" re texts = none := by
    intro re hn texts
    induction texts with
    | nil => rfl
    | cons t ts ih => simp only [firstMatch, hn t]; exact ih
  refine ⟨hbase, hre, ?_, ?_⟩
  · simp only [ExpectAny]
    exact scanLines_noMatch _ _ _ _ _ (hfm none hnil _)
  · simp only [ExpectAny]
    exact scanLines_noMatch _ _ _ _ _ (hfm (some r) hre _)

/-- Witness for C10: a stream with one (non-empty) line and an immediate
close, scanned with an empty pattern and no regex, ends in the stream-end
error. -/
theorem C10_witness :
    ExpectAny 5 0 ⟨[⟨0, "hello"⟩], some 0⟩ "" none 3 = timeoutReturn ∨
    ExpectAny 5 0 ⟨[⟨0, "hello"⟩], some 0⟩ "" none 3 = streamEndReturn :=
  (C10_empty_pattern_never_matches 5 0 3 ⟨[⟨0, "hello"⟩], some 0⟩ (fun _ => "")
    (fun _ => rfl)).2.2.1

end expect
